import Mathlib

/-!
Shallow embedding of the multi-store WooCommerce dashboard core:
the store registry and health monitor (`src/services/woocommerce.ts`,
class `WooCommerceService`) and the per-entity fetch aggregators
(`AllOrders.fetchOrders`, `AllProducts.fetchProducts`).

Browser `localStorage` under the single key `woocommerce_servers` is
modelled as the deserialized store list itself (`getServers` parses the
stored JSON; `localStorage.setItem` writes emit a `RegEvent.write`
carrying the serialized collection).  Observer notification
(`notifyMonitorCallbacks`) emits a `RegEvent.notify` carrying the list it
read back from storage; the source broadcasts that very list to every
registered callback.  Network I/O (axios) is modelled by oracle
functions supplied as parameters: each probe or per-store fetch either
returns data or throws, and a thrown JavaScript value is an
`Option String` (`some msg` for an `Error` instance with message `msg`,
`none` for a non-`Error` throw).
-/

namespace Woo

/-- JavaScript `String.prototype.includes` on lists of characters:
`needle` occurs contiguously inside the list. -/
def charsContain (needle : List Char) : List Char → Bool
  | [] => needle == []
  | c :: cs => needle.isPrefixOf (c :: cs) || charsContain needle cs

/-- JavaScript `hay.includes(needle)`. -/
def strIncludes (hay needle : String) : Bool :=
  charsContain needle.toList hay.toList

/-- The `status` union type `'online' | 'offline' | 'error'` of
`WooCommerceServer.status`. -/
inductive ServerStatus where
  | online
  | offline
  | srvError
deriving DecidableEq, Repr

/-- The `WooCommerceServer` interface of `src/services/woocommerce.ts`.
Optional (`?`) fields are `Option`s, `none` standing for `undefined`. -/
structure WooServer where
  id : String
  name : String
  url : String
  consumerKey : String
  consumerSecret : String
  isActive : Bool
  lastChecked : Option String := none
  status : Option ServerStatus := none
  errorMessage : Option String := none
  responseTime : Option Nat := none
deriving DecidableEq, Repr

/-- Source constant `WooCommerceService.DEFAULT_TIMEOUT` (milliseconds). -/
def DEFAULT_TIMEOUT : Nat := 10000

/-- Source constant `WooCommerceService.MAX_RETRIES`. -/
def MAX_RETRIES : Nat := 2

/-- Outcome of one axios probe of `GET /system_status` inside
`checkServerWithRetry`: the response arrives with an HTTP status code
after `elapsed` ms, or the call throws (`some msg` = an `Error` with
that message, `none` = a non-`Error` value) after `elapsed` ms. -/
inductive ProbeAttempt where
  | ok (httpStatus : Nat) (elapsed : Nat)
  | thrown (err : Option String) (elapsed : Nat)
deriving DecidableEq, Repr

/-- The result record of `checkServerWithRetry` / `checkServerStatus`. -/
structure CheckResult where
  status : ServerStatus
  errorMessage : Option String := none
  responseTime : Option Nat := none
deriving DecidableEq, Repr

/-- The `isTimeout` classification in the catch block of
`checkServerWithRetry`: the thrown value is an `Error` whose message
includes `'timeout'` or `'ECONNABORTED'`. -/
def isTimeoutErr : Option String → Bool
  | some msg => strIncludes msg "timeout" || strIncludes msg "ECONNABORTED"
  | none => false

/-- The `isNetworkError` classification in the catch block: an `Error` whose
message includes `'Network Error'`, or a timeout. -/
def isNetworkErr (err : Option String) : Bool :=
  match err with
  | some msg => strIncludes msg "Network Error" || isTimeoutErr (some msg)
  | none => false

/-- The error message built on final failure:
`error.message` plus `' (after N attempts)'` when `retryCount > 0` for an
`Error` instance, `'Unknown error occurred'` otherwise. -/
def failureMessage (err : Option String) (retryCount : Nat) : String :=
  match err with
  | some msg =>
      msg ++ (if retryCount > 0 then " (after " ++ toString (retryCount + 1) ++ " attempts)" else "")
  | none => "Unknown error occurred"

/-- Embedding of `WooCommerceService.checkServerWithRetry`.  The sequence of probe
outcomes is the oracle `probes` (attempt number ↦ outcome); each
recursive call re-reads `Date.now()`, so the reported `responseTime` is
the elapsed time of the final attempt only. -/
def checkServerWithRetry (probes : Nat → ProbeAttempt) (retryCount : Nat) : CheckResult :=
  match probes retryCount with
  | .ok httpStatus elapsed =>
      { status := if httpStatus == 200 then .online else .srvError,
        errorMessage := if httpStatus != 200 then some "Server returned unexpected status" else none,
        responseTime := some elapsed }
  | .thrown err elapsed =>
      if isTimeoutErr err && decide (retryCount < MAX_RETRIES) then
        checkServerWithRetry probes (retryCount + 1)
      else
        { status := if isNetworkErr err then .offline else .srvError,
          errorMessage := some (failureMessage err retryCount),
          responseTime := some elapsed }
termination_by MAX_RETRIES + 1 - retryCount
decreasing_by
  simp only [Bool.and_eq_true, decide_eq_true_eq] at *
  omega

/-- Embedding of `WooCommerceService.checkServerStatus`: entry point with
`retryCount = 0`. -/
def checkServerStatus (probes : Nat → ProbeAttempt) : CheckResult :=
  checkServerWithRetry probes 0

/-- Number of probe attempts `checkServerWithRetry` performs; mirrors
its recursion exactly. -/
def attemptsUsed (probes : Nat → ProbeAttempt) (retryCount : Nat) : Nat :=
  match probes retryCount with
  | .ok _ _ => retryCount + 1
  | .thrown err _ =>
      if isTimeoutErr err && decide (retryCount < MAX_RETRIES) then
        attemptsUsed probes (retryCount + 1)
      else
        retryCount + 1
termination_by MAX_RETRIES + 1 - retryCount
decreasing_by
  simp only [Bool.and_eq_true, decide_eq_true_eq] at *
  omega

/-- An observable side effect of the registry:
`write` = `localStorage.setItem(STORAGE_KEY, JSON.stringify(servers))`,
`notify` = `notifyMonitorCallbacks()` broadcasting the list it read back
from storage to every registered callback. -/
inductive RegEvent where
  | write (servers : List WooServer)
  | notify (servers : List WooServer)
deriving DecidableEq, Repr

/-- Embedding of `WooCommerceService.getServers`: parse the stored JSON (the model
identifies storage with the deserialized list). -/
def getServers (storage : List WooServer) : List WooServer :=
  storage

/-- Embedding of `WooCommerceService.getActiveServers`. -/
def getActiveServers (storage : List WooServer) : List WooServer :=
  (getServers storage).filter (fun server => server.isActive && server.status == some .online)

/-- Embedding of `notifyMonitorCallbacks`: read the servers back from storage and
call every registered callback (identified here by a token) with that
full list. -/
def notifyMonitorCallbacks (callbacks : List Nat) (storage : List WooServer) :
    List (Nat × List WooServer) :=
  callbacks.map (fun cb => (cb, getServers storage))

/-- The argument type of `addServer`:
`Omit<WooCommerceServer, 'id' | 'isActive' | 'status'>`. -/
structure WooServerInput where
  name : String
  url : String
  consumerKey : String
  consumerSecret : String
  lastChecked : Option String := none
  errorMessage : Option String := none
  responseTime : Option Nat := none
deriving DecidableEq, Repr

/-- Embedding of `WooCommerceService.addServer`.  `newId` is the value returned by
`crypto.randomUUID()`.  Returns the created record, the new storage
contents, and the emitted effects in order. -/
def addServer (storage : List WooServer) (server : WooServerInput) (newId : String) :
    WooServer × List WooServer × List RegEvent :=
  let servers := getServers storage
  let newServer : WooServer :=
    { id := newId
      name := server.name
      url := server.url
      consumerKey := server.consumerKey
      consumerSecret := server.consumerSecret
      isActive := true
      lastChecked := server.lastChecked
      status := some .offline
      errorMessage := server.errorMessage
      responseTime := server.responseTime }
  let servers' := servers ++ [newServer]
  (newServer, servers', [.write servers', .notify servers'])

/-- The type `Partial<WooCommerceServer>` as passed to `updateServer`: an outer
`none` means the property is absent from the updates object; an outer
`some v` means it is present with value `v` (for optional fields `v` may
itself be `none`, i.e. explicitly `undefined`, which the object spread
still overwrites with). -/
structure WooServerPatch where
  id : Option String := none
  name : Option String := none
  url : Option String := none
  consumerKey : Option String := none
  consumerSecret : Option String := none
  isActive : Option Bool := none
  lastChecked : Option (Option String) := none
  status : Option (Option ServerStatus) := none
  errorMessage : Option (Option String) := none
  responseTime : Option (Option Nat) := none
deriving DecidableEq, Repr

/-- The object spread `{ ...server, ...updates }`. -/
def applyPatch (server : WooServer) (updates : WooServerPatch) : WooServer :=
  { id := updates.id.getD server.id
    name := updates.name.getD server.name
    url := updates.url.getD server.url
    consumerKey := updates.consumerKey.getD server.consumerKey
    consumerSecret := updates.consumerSecret.getD server.consumerSecret
    isActive := updates.isActive.getD server.isActive
    lastChecked := updates.lastChecked.getD server.lastChecked
    status := updates.status.getD server.status
    errorMessage := updates.errorMessage.getD server.errorMessage
    responseTime := updates.responseTime.getD server.responseTime }

/-- Embedding of `servers.findIndex(...)` followed by an in-place replacement of the
first element whose `id` matches; `none` when `findIndex` returns -1. -/
def mapFirst (servers : List WooServer) (serverId : String) (f : WooServer → WooServer) :
    Option (List WooServer) :=
  match servers with
  | [] => none
  | s :: rest =>
      if s.id == serverId then some (f s :: rest)
      else (mapFirst rest serverId f).map (fun rest' => s :: rest')

/-- Embedding of `WooCommerceService.updateServer`. -/
def updateServer (storage : List WooServer) (serverId : String) (updates : WooServerPatch) :
    List WooServer × List RegEvent :=
  let servers := getServers storage
  match mapFirst servers serverId (fun s => applyPatch s updates) with
  | some servers' => (servers', [.write servers', .notify servers'])
  | none => (servers, [])

/-- Embedding of `WooCommerceService.deleteServer`. -/
def deleteServer (storage : List WooServer) (serverId : String) :
    List WooServer × List RegEvent :=
  let servers := (getServers storage).filter (fun s => s.id != serverId)
  (servers, [.write servers, .notify servers])

/-- Embedding of `WooCommerceService.toggleServerActive`: `find` the first record
with the given id and flip its `isActive` in place, then persist and
notify; no effect when the id is absent. -/
def toggleServerActive (storage : List WooServer) (serverId : String) :
    List WooServer × List RegEvent :=
  match mapFirst (getServers storage) serverId (fun s => { s with isActive := !s.isActive }) with
  | some servers' => (servers', [.write servers', .notify servers'])
  | none => (getServers storage, [])

/-- The change test in `checkAllServersStatus`:
`server.status !== status || server.errorMessage !== errorMessage ||
server.responseTime !== responseTime`, comparing the snapshot record's
optional fields against the fresh check result. -/
def fieldsChanged (server : WooServer) (result : CheckResult) : Bool :=
  server.status != some result.status ||
  server.errorMessage != result.errorMessage ||
  server.responseTime != result.responseTime

/-- The updates object `{status, errorMessage, responseTime, lastChecked}`
passed to `updateServer` by `checkAllServersStatus`; all four properties
are present (possibly explicitly `undefined`). -/
def monitorPatch (result : CheckResult) (now : String) : WooServerPatch :=
  { status := some (some result.status)
    errorMessage := some result.errorMessage
    responseTime := some result.responseTime
    lastChecked := some (some now) }

/-- One iteration of the `results.forEach` loop in
`checkAllServersStatus`: threads the current storage, the effect trace
and the `hasChanges` flag, processing one `(server, result)` pair from
the snapshot. -/
def checkAllStep (now : String) (acc : List WooServer × List RegEvent × Bool)
    (pr : WooServer × CheckResult) : List WooServer × List RegEvent × Bool :=
  let (storage, events, hasChanges) := acc
  let (server, result) := pr
  if fieldsChanged server result then
    let (storage', evs) := updateServer storage server.id (monitorPatch result now)
    (storage', events ++ evs, true)
  else
    (storage, events, hasChanges)

/-- Embedding of `WooCommerceService.checkAllServersStatus`.  The per-server probe
results are the oracle `check` (the `Promise.all` fan-out of
`checkServerStatus`), evaluated on the snapshot taken by the initial
`getServers()`; `now` is `new Date().toISOString()`.  Returns the final
storage and the ordered effect trace. -/
def checkAllServersStatus (storage : List WooServer) (check : WooServer → CheckResult)
    (now : String) : List WooServer × List RegEvent :=
  let servers := getServers storage
  let results := servers.map (fun server => (server, check server))
  let (storage', events, hasChanges) := results.foldl (checkAllStep now) (storage, [], false)
  if hasChanges then (storage', events ++ [.notify storage']) else (storage', events)

/-- The monitor's interval control state:
`WooCommerceService.monitorCallbacks` (callbacks as identity tokens,
compared by `!==`) and `WooCommerceService.monitoringInterval`
(`some period` when `window.setInterval(_, period)` is scheduled). -/
structure MonitorCtl where
  monitorCallbacks : List Nat
  monitoringInterval : Option Nat
deriving DecidableEq, Repr

/-- The initial static state: no callbacks, no interval. -/
def initMonitorCtl : MonitorCtl :=
  { monitorCallbacks := [], monitoringInterval := none }

/-- Embedding of `WooCommerceService.startMonitoring` (control-state part): push the
callback when given, and schedule the 5000 ms interval when none is
scheduled. -/
def startMonitoring (cb : Option Nat) (st : MonitorCtl) : MonitorCtl :=
  let st1 :=
    match cb with
    | some c => { st with monitorCallbacks := st.monitorCallbacks ++ [c] }
    | none => st
  match st1.monitoringInterval with
  | none => { st1 with monitoringInterval := some 5000 }
  | some _ => st1

/-- Embedding of `WooCommerceService.stopMonitoring`: filter the callback out when
given, and clear the interval when no callbacks remain and an interval
is scheduled. -/
def stopMonitoring (cb : Option Nat) (st : MonitorCtl) : MonitorCtl :=
  let st1 :=
    match cb with
    | some c => { st with monitorCallbacks := st.monitorCallbacks.filter (fun x => x != c) }
    | none => st
  if st1.monitorCallbacks.isEmpty && st1.monitoringInterval.isSome then
    { st1 with monitoringInterval := none }
  else
    st1

/-- A call to the monitor's public control interface. -/
inductive MonitorOp where
  | start (cb : Option Nat)
  | halt (cb : Option Nat)
deriving DecidableEq, Repr

/-- Apply a sequence of `startMonitoring` / `stopMonitoring` calls. -/
def applyMonitorOps (ops : List MonitorOp) (st : MonitorCtl) : MonitorCtl :=
  ops.foldl
    (fun s op =>
      match op with
      | .start c => startMonitoring c s
      | .halt c => stopMonitoring c s)
    st

/-- The `store` back-reference `{id, name}` attached to each order by
`AllOrders.fetchOrders`. -/
structure OrderStoreRef where
  id : String
  name : String
deriving DecidableEq, Repr

/-- The `Order` interface of `AllOrders.tsx`, restricted to the fields
the aggregation logic reads; the remaining display fields ride along in
`payload` verbatim. -/
structure Order where
  id : Nat
  number : String
  payload : String := ""
  notes : List String := []
  store : Option OrderStoreRef := none
deriving DecidableEq, Repr

/-- The dedup test of `fetchOrders`:
`existingOrder.id === newOrder.id && existingOrder.store?.id === newOrder.store?.id`
(JS strict equality on optional chaining: two `undefined`s compare
equal, which `Option` `==` matches). -/
def sameOrderKey (e n : Order) : Bool :=
  e.id == n.id && (e.store.map OrderStoreRef.id) == (n.store.map OrderStoreRef.id)

/-- The `setOrders` merge in `fetchOrders`: keep the previous list and
append the members of the fetched batch whose `(id, store?.id)` pair is
not already present. -/
def mergeOrders (prevOrders allOrders : List Order) : List Order :=
  prevOrders ++ allOrders.filter (fun n => !(prevOrders.any (fun e => sameOrderKey e n)))

/-- The body of one `selectedServers.map` arm in `fetchOrders`:
look the id up in `servers` (unknown id contributes `[]`), run the
per-store pipeline (orders request plus per-order notes requests,
abstracted as the oracle `fetchOne`), annotate each order with the
store back-reference; the surrounding catch turns any per-store throw
into `[]`. -/
def perStoreOrders (servers : List WooServer)
    (fetchOne : WooServer → Except (Option String) (List Order)) (serverId : String) :
    List Order :=
  match servers.find? (fun s => s.id == serverId) with
  | none => []
  | some server =>
      match fetchOne server with
      | .ok orders =>
          orders.map (fun o => { o with store := some { id := server.id, name := server.name } })
      | .error _ => []

/-- The batch `allOrders`: flatten the settled per-store arrays
(`Promise.all` + `.flat()`). -/
def fetchOrdersBatch (servers : List WooServer) (selectedServers : List String)
    (fetchOne : WooServer → Except (Option String) (List Order)) : List Order :=
  (selectedServers.map (perStoreOrders servers fetchOne)).flatten

/-- The state visible after one `fetchOrders` round: the merged order
list and the `hasMore` flag. -/
structure OrdersRound where
  orders : List Order
  hasMore : Bool
deriving DecidableEq, Repr

/-- One round of `AllOrders.fetchOrders` over the current page:
merge the fetched batch into the previous list and set
`hasMore := allOrders.length === selectedServers.length * 20`. -/
def fetchOrdersRound (servers : List WooServer) (selectedServers : List String)
    (fetchOne : WooServer → Except (Option String) (List Order))
    (prevOrders : List Order) : OrdersRound :=
  let allOrders := fetchOrdersBatch servers selectedServers fetchOne
  { orders := mergeOrders prevOrders allOrders
    hasMore := allOrders.length == selectedServers.length * 20 }

/-- The `store` back-reference `{id, name, url}` attached to each
product by `AllProducts.fetchProducts`. -/
structure ProductStoreRef where
  id : String
  name : String
  url : String
deriving DecidableEq, Repr

/-- The `Product` interface of `AllProducts.tsx`, restricted to the
fields the aggregation logic reads. -/
structure Product where
  id : Nat
  name : String
  price : String := ""
  payload : String := ""
  store : Option ProductStoreRef := none
deriving DecidableEq, Repr

/-- The dedup test of `fetchProducts`. -/
def sameProductKey (e n : Product) : Bool :=
  e.id == n.id && (e.store.map ProductStoreRef.id) == (n.store.map ProductStoreRef.id)

/-- The `setProducts` merge in `fetchProducts`. -/
def mergeProducts (prevProducts allProducts : List Product) : List Product :=
  prevProducts ++ allProducts.filter (fun n => !(prevProducts.any (fun e => sameProductKey e n)))

/-- The body of one `selectedServers.map` arm in `fetchProducts`. -/
def perStoreProducts (servers : List WooServer)
    (fetchOne : WooServer → Except (Option String) (List Product)) (serverId : String) :
    List Product :=
  match servers.find? (fun s => s.id == serverId) with
  | none => []
  | some server =>
      match fetchOne server with
      | .ok products =>
          products.map (fun p =>
            { p with store := some { id := server.id, name := server.name, url := server.url } })
      | .error _ => []

/-- The batch `allProducts`: flatten the settled per-store arrays. -/
def fetchProductsBatch (servers : List WooServer) (selectedServers : List String)
    (fetchOne : WooServer → Except (Option String) (List Product)) : List Product :=
  (selectedServers.map (perStoreProducts servers fetchOne)).flatten

/-- The state visible after one `fetchProducts` round. -/
structure ProductsRound where
  products : List Product
  hasMore : Bool
deriving DecidableEq, Repr

/-- One round of `AllProducts.fetchProducts` over the current page. -/
def fetchProductsRound (servers : List WooServer) (selectedServers : List String)
    (fetchOne : WooServer → Except (Option String) (List Product))
    (prevProducts : List Product) : ProductsRound :=
  let allProducts := fetchProductsBatch servers selectedServers fetchOne
  { products := mergeProducts prevProducts allProducts
    hasMore := allProducts.length == selectedServers.length * 20 }

/-! ### Concrete fixtures used by witnesses and counterexamples -/

/-- A registered demo store. -/
def demoServer (i : Nat) : WooServer :=
  { id := "s" ++ toString i
    name := "Store " ++ toString i
    url := "https://store" ++ toString i ++ ".example"
    consumerKey := "ck"
    consumerSecret := "cs"
    isActive := true }

/-- Fixture of `n` orders with ids `0, …, n-1`, not yet annotated with a store. -/
def demoOrders (n : Nat) : List Order :=
  (List.range n).map (fun i => { id := i, number := toString i })

/-- Fixture of `n` products with ids `0, …, n-1`, not yet annotated with a store. -/
def demoProducts (n : Nat) : List Product :=
  (List.range n).map (fun i => { id := i, name := toString i })

/-- A probe that throws an axios timeout `Error`. -/
def timeoutProbe : ProbeAttempt :=
  .thrown (some "timeout of 10000ms exceeded") 10000

/-- Probe oracle: timeout, timeout, then a non-`Error` throw. -/
def cexProbes : Nat → ProbeAttempt :=
  fun i => if i < 2 then timeoutProbe else .thrown none 3

/-- Probe oracle: timeout, timeout, then HTTP 200 after 120 ms. -/
def recoverProbes : Nat → ProbeAttempt :=
  fun i => if i < 2 then timeoutProbe else .ok 200 120

/-- Probe oracle: every attempt times out. -/
def allTimeoutProbes : Nat → ProbeAttempt :=
  fun _ => timeoutProbe

/-- Probe oracle: a timeout, then a non-network HTTP failure (axios
message for a 401 response). -/
def authFailProbes : Nat → ProbeAttempt :=
  fun i => if i = 0 then timeoutProbe else .thrown (some "Request failed with status code 401") 45

/-- A stored record whose monitor-derived fields are already current. -/
def wMonServer : WooServer :=
  { demoServer 1 with status := some .online, errorMessage := none, responseTime := some 100 }

/-- The check result matching `wMonServer`'s stored fields. -/
def wMonResult : CheckResult :=
  { status := .online, errorMessage := none, responseTime := some 100 }

/-- Fetch oracle: both stores return a full page of 20 orders. -/
def wFetch40 : WooServer → Except (Option String) (List Order) :=
  fun _ => .ok (demoOrders 20)

/-- Fetch oracle: store `s1` returns a full page of 20 orders, every
other store returns 19. -/
def wFetch39 : WooServer → Except (Option String) (List Order) :=
  fun s => if s.id == "s1" then .ok (demoOrders 20) else .ok (demoOrders 19)

/-- Fetch oracle: store `s1` succeeds with 5 orders, every other store
throws a network error. -/
def wFetchPartial : WooServer → Except (Option String) (List Order) :=
  fun s => if s.id == "s1" then .ok (demoOrders 5) else .error (some "Network Error")

/-- Witness fixture: an order of store `s1`. -/
def wOrder1 : Order :=
  { id := 1, number := "1001", store := some { id := "s1", name := "Store 1" } }

/-- Witness fixture: a refetched copy of `wOrder1` (same `(store.id, id)`
key, different payload). -/
def wOrder1' : Order :=
  { id := 1, number := "1001-refetch", store := some { id := "s1", name := "Store 1" } }

/-- Witness fixture: an order of store `s2`. -/
def wOrder2 : Order :=
  { id := 2, number := "1002", store := some { id := "s2", name := "Store 2" } }

/-- Witness fixture: a product of store `s1`. -/
def wProduct1 : Product :=
  { id := 1, name := "p1", store := some { id := "s1", name := "Store 1", url := "u1" } }

/-- Witness fixture: a refetched copy of `wProduct1`. -/
def wProduct1' : Product :=
  { id := 1, name := "p1-refetch", store := some { id := "s1", name := "Store 1", url := "u1" } }

/-- Witness fixture: a product of store `s2`. -/
def wProduct2 : Product :=
  { id := 2, name := "p2", store := some { id := "s2", name := "Store 2", url := "u2" } }

/-- Witness fixture: an `addServer` input record. -/
def wInput : WooServerInput :=
  { name := "New Store", url := "https://new.example", consumerKey := "k", consumerSecret := "c" }

/-- Invariant of the monitor control state reachable from
`initMonitorCtl`: an interval is scheduled whenever a callback is
registered, and a scheduled interval always has the 5000 ms period. -/
def MonitorInv (st : MonitorCtl) : Prop :=
  (st.monitorCallbacks = [] ∨ st.monitoringInterval = some 5000) ∧
  (st.monitoringInterval = none ∨ st.monitoringInterval = some 5000)

/-! ### Helper lemmas -/

lemma beq_symm {α : Type} [BEq α] [LawfulBEq α] (a b : α) : (a == b) = (b == a) := by
  by_cases h : a = b
  · subst h; rfl
  · rw [beq_false_of_ne h, beq_false_of_ne (Ne.symm h)]

/-- Generic shape of the aggregators' dedup merge, abstracted over the
key-equality test `same` (assumed to decide equality of some key). -/
lemma dedup_append_pairwise {α : Type} (same : α → α → Bool)
    (prev batch : List α)
    (hp : prev.Pairwise fun a b => same a b = false)
    (hb : batch.Pairwise fun a b => same a b = false) :
    (prev ++ batch.filter fun n => !(prev.any fun e => same e n)).Pairwise
      (fun a b => same a b = false) := by
  rw [List.pairwise_append]
  refine ⟨hp, List.Pairwise.sublist (List.filter_sublist batch) hb, ?_⟩
  intro a ha b hb'
  rw [List.mem_filter] at hb'
  have hnone : ∀ e ∈ prev, ¬ same e b = true := by
    have := hb'.2
    simp only [Bool.not_eq_true', List.any_eq_false] at this
    exact this
  exact Bool.not_eq_true _ ▸ (hnone a ha)

lemma countP_eq_one_of_pairwise {α κ : Type} (same : α → α → Bool) (key : α → κ)
    (hsame : ∀ a b, same a b = true ↔ key a = key b)
    (l : List α) (hp : l.Pairwise fun a b => same a b = false)
    (n e : α) (he : e ∈ l) (hen : same e n = true) :
    l.countP (fun x => same x n) = 1 := by
  induction l with
  | nil => cases he
  | cons a rest ih =>
      rw [List.pairwise_cons] at hp
      rw [List.countP_cons]
      rcases List.mem_cons.mp he with rfl | hmem
      · have han : same e n = true := hen
        have hzero : rest.countP (fun x => same x n) = 0 := by
          rw [List.countP_eq_zero]
          intro x hx hxn
          have hex : same e x = true := by
            rw [hsame] at hxn hen ⊢
            exact hen.trans hxn.symm
          rw [hp.1 x hx] at hex
          cases hex
        simp [hzero, han]
      · have han : same a n = false := by
          by_contra hcontra
          rw [Bool.not_eq_false] at hcontra
          have hae : same a e = true := by
            rw [hsame] at hcontra hen ⊢
            exact hcontra.trans hen.symm
          rw [hp.1 e hmem] at hae
          cases hae
        rw [ih hp.2 hmem]
        simp [han]

lemma dedup_append_countP {α κ : Type} (same : α → α → Bool) (key : α → κ)
    (hsame : ∀ a b, same a b = true ↔ key a = key b)
    (prev batch : List α)
    (hp : prev.Pairwise fun a b => same a b = false)
    (n e : α) (he : e ∈ prev) (hen : same e n = true) :
    (prev ++ batch.filter fun m => !(prev.any fun x => same x m)).countP
      (fun x => same x n) = 1 := by
  rw [List.countP_append]
  have h1 : prev.countP (fun x => same x n) = 1 :=
    countP_eq_one_of_pairwise same key hsame prev hp n e he hen
  have h2 : (batch.filter fun m => !(prev.any fun x => same x m)).countP
      (fun x => same x n) = 0 := by
    rw [List.countP_eq_zero]
    intro m hm hmn
    rw [List.mem_filter] at hm
    have hem : same e m = true := by
      rw [hsame] at hen hmn ⊢
      exact hen.trans hmn.symm
    have : prev.any (fun x => same x m) = true := List.any_eq_true.mpr ⟨e, he, hem⟩
    rw [this] at hm
    cases hm.2
  omega

lemma sameOrderKey_iff_key (a b : Order) :
    sameOrderKey a b = true ↔
      (a.id, a.store.map OrderStoreRef.id) = (b.id, b.store.map OrderStoreRef.id) := by
  simp [sameOrderKey, Prod.ext_iff]

lemma sameProductKey_iff_key (a b : Product) :
    sameProductKey a b = true ↔
      (a.id, a.store.map ProductStoreRef.id) = (b.id, b.store.map ProductStoreRef.id) := by
  simp [sameProductKey, Prod.ext_iff]

lemma checkRetry_step (probes : Nat → ProbeAttempt) (r : Nat) (m : String) (t : Nat)
    (hr : r < MAX_RETRIES) (h : probes r = .thrown (some m) t)
    (ht : isTimeoutErr (some m) = true) :
    checkServerWithRetry probes r = checkServerWithRetry probes (r + 1) := by
  rw [checkServerWithRetry.eq_def, h]
  simp [ht, hr]

lemma checkRetry_final_throw (probes : Nat → ProbeAttempt) (r : Nat) (e : Option String)
    (t : Nat) (h : probes r = .thrown e t)
    (hstop : isTimeoutErr e = false ∨ ¬ r < MAX_RETRIES) :
    checkServerWithRetry probes r =
      { status := if isNetworkErr e then .offline else .srvError,
        errorMessage := some (failureMessage e r),
        responseTime := some t } := by
  rw [checkServerWithRetry.eq_def, h]
  rcases hstop with h' | h' <;> simp [h']

lemma checkRetry_ok (probes : Nat → ProbeAttempt) (r : Nat) (hs t : Nat)
    (h : probes r = .ok hs t) :
    checkServerWithRetry probes r =
      { status := if hs == 200 then .online else .srvError,
        errorMessage := if hs != 200 then some "Server returned unexpected status" else none,
        responseTime := some t } := by
  rw [checkServerWithRetry.eq_def, h]

lemma attemptsUsed_step (probes : Nat → ProbeAttempt) (r : Nat) (m : String) (t : Nat)
    (hr : r < MAX_RETRIES) (h : probes r = .thrown (some m) t)
    (ht : isTimeoutErr (some m) = true) :
    attemptsUsed probes r = attemptsUsed probes (r + 1) := by
  rw [attemptsUsed.eq_def, h]
  simp [ht, hr]

lemma attemptsUsed_le (probes : Nat → ProbeAttempt) : attemptsUsed probes 0 ≤ 3 := by
  have h2 : attemptsUsed probes 2 = 3 := by
    rw [attemptsUsed.eq_def]
    cases hp : probes 2 with
    | ok hs t => rfl
    | thrown e t => simp [MAX_RETRIES]
  have h1 : attemptsUsed probes 1 ≤ 3 := by
    rw [attemptsUsed.eq_def]
    cases hp : probes 1 with
    | ok hs t => simp
    | thrown e t =>
        by_cases hto : isTimeoutErr e = true
        · simp [hto, MAX_RETRIES, h2]
        · simp [Bool.not_eq_true] at hto
          simp [hto]
  rw [attemptsUsed.eq_def]
  cases hp : probes 0 with
  | ok hs t => simp
  | thrown e t =>
      by_cases hto : isTimeoutErr e = true
      · simp [hto, MAX_RETRIES]
        omega
      · simp [Bool.not_eq_true] at hto
        simp [hto]

/-! ### Claim theorems -/

/-- C2: after merging a fetched batch into the accumulated list, no two
entries of the merged orders (resp. products) list share the same
`(store.id, entity.id)` pair, and a batch entity whose pair already
occurs in the accumulated list leaves exactly one copy in the merge. -/
theorem merged_result_key_unique
    (prevO batchO : List Order) (prevP batchP : List Product)
    (hpO : prevO.Pairwise fun a b => sameOrderKey a b = false)
    (hbO : batchO.Pairwise fun a b => sameOrderKey a b = false)
    (hpP : prevP.Pairwise fun a b => sameProductKey a b = false)
    (hbP : batchP.Pairwise fun a b => sameProductKey a b = false) :
    ((mergeOrders prevO batchO).Pairwise fun a b => sameOrderKey a b = false)
    ∧ (∀ n ∈ batchO, ∀ e ∈ prevO, sameOrderKey e n = true →
        (mergeOrders prevO batchO).countP (fun x => sameOrderKey x n) = 1)
    ∧ ((mergeProducts prevP batchP).Pairwise fun a b => sameProductKey a b = false)
    ∧ (∀ n ∈ batchP, ∀ e ∈ prevP, sameProductKey e n = true →
        (mergeProducts prevP batchP).countP (fun x => sameProductKey x n) = 1) := by
  refine ⟨?_, ?_, ?_, ?_⟩
  · exact dedup_append_pairwise sameOrderKey prevO batchO hpO hbO
  · intro n _ e he hen
    exact dedup_append_countP sameOrderKey
      (fun o => (o.id, o.store.map OrderStoreRef.id)) sameOrderKey_iff_key
      prevO batchO hpO n e he hen
  · exact dedup_append_pairwise sameProductKey prevP batchP hpP hbP
  · intro n _ e he hen
    exact dedup_append_countP sameProductKey
      (fun p => (p.id, p.store.map ProductStoreRef.id)) sameProductKey_iff_key
      prevP batchP hpP n e he hen

/-- Witness for C2 at concrete inputs: `wOrder1'` collides with the
accumulated `wOrder1`, and exactly one copy with that key survives. -/
theorem merged_result_key_unique_witness :
    ((mergeOrders [wOrder1] [wOrder1', wOrder2]).Pairwise
      fun a b => sameOrderKey a b = false)
    ∧ (mergeOrders [wOrder1] [wOrder1', wOrder2]).countP
        (fun x => sameOrderKey x wOrder1') = 1
    ∧ ((mergeProducts [wProduct1] [wProduct1', wProduct2]).Pairwise
        fun a b => sameProductKey a b = false)
    ∧ (mergeProducts [wProduct1] [wProduct1', wProduct2]).countP
        (fun x => sameProductKey x wProduct1') = 1 := by
  obtain ⟨h1, h2, h3, h4⟩ :=
    merged_result_key_unique [wOrder1] [wOrder1', wOrder2] [wProduct1] [wProduct1', wProduct2]
      (by decide) (by decide) (by decide) (by decide)
  exact ⟨h1, h2 wOrder1' (by decide) wOrder1 (by decide) (by decide),
         h3, h4 wProduct1' (by decide) wProduct1 (by decide) (by decide)⟩

/-- C3: a probe sequence that times out on the first two attempts and
succeeds (HTTP 200) on the third ends `online`; one that times out on
all three attempts ends `offline` with a message noting 3 attempts; and
no probe sequence ever uses more than 3 attempts (the initial attempt
plus at most `MAX_RETRIES = 2` retries). -/
theorem health_retry_outcomes
    (probes : Nat → ProbeAttempt) (m0 m1 : String) (t0 t1 : Nat)
    (h0 : probes 0 = .thrown (some m0) t0) (ht0 : isTimeoutErr (some m0) = true)
    (h1 : probes 1 = .thrown (some m1) t1) (ht1 : isTimeoutErr (some m1) = true) :
    (∀ t, probes 2 = .ok 200 t → (checkServerStatus probes).status = .online)
    ∧ (∀ m t, probes 2 = .thrown (some m) t → isTimeoutErr (some m) = true →
        (checkServerStatus probes).status = .offline
        ∧ (checkServerStatus probes).errorMessage = some (m ++ " (after 3 attempts)"))
    ∧ (∀ probes' : Nat → ProbeAttempt, attemptsUsed probes' 0 ≤ 3) := by
  have e2 : checkServerStatus probes = checkServerWithRetry probes 2 := by
    rw [checkServerStatus,
        checkRetry_step probes 0 m0 t0 (by simp [MAX_RETRIES]) h0 ht0,
        checkRetry_step probes 1 m1 t1 (by simp [MAX_RETRIES]) h1 ht1]
  refine ⟨?_, ?_, fun probes' => attemptsUsed_le probes'⟩
  · intro t h2
    rw [e2, checkRetry_ok probes 2 200 t h2]
    rfl
  · intro m t h2 htm
    have hfin := checkRetry_final_throw probes 2 (some m) t h2 (Or.inr (by simp [MAX_RETRIES]))
    have hnet : isNetworkErr (some m) = true := by
      simp only [isNetworkErr, htm, Bool.or_true]
    rw [e2, hfin]
    refine ⟨by simp [hnet], ?_⟩
    simp only [failureMessage]
    norm_num
    congr 1

/-- Witness for C3: with the concrete timeout message
`'timeout of 10000ms exceeded'`, recovery on the third attempt yields
`online`, three timeouts yield `offline` with `'(after 3 attempts)'`,
and the all-timeout run uses exactly 3 attempts (≤ 3). -/
theorem health_retry_outcomes_witness :
    (checkServerStatus recoverProbes).status = .online
    ∧ (checkServerStatus allTimeoutProbes).status = .offline
    ∧ (checkServerStatus allTimeoutProbes).errorMessage
        = some "timeout of 10000ms exceeded (after 3 attempts)"
    ∧ attemptsUsed allTimeoutProbes 0 ≤ 3 := by
  obtain ⟨hOn, _, _⟩ :=
    health_retry_outcomes recoverProbes "timeout of 10000ms exceeded"
      "timeout of 10000ms exceeded" 10000 10000 rfl (by decide) rfl (by decide)
  obtain ⟨_, hOff, hLe⟩ :=
    health_retry_outcomes allTimeoutProbes "timeout of 10000ms exceeded"
      "timeout of 10000ms exceeded" 10000 10000 rfl (by decide) rfl (by decide)
  have h2 := hOff "timeout of 10000ms exceeded" 10000 rfl (by decide)
  refine ⟨hOn 120 rfl, h2.1, ?_, hLe allTimeoutProbes⟩
  rw [h2.2]
  decide

/-- C4 counterexample: against `cexProbes` (timeout, timeout, then a
thrown non-`Error` value) the check performs 3 attempts — so at least
one retry occurred — yet the resulting message is the fixed string
`'Unknown error occurred'` with no attempt count appended. -/
theorem retry_message_cex :
    attemptsUsed cexProbes 0 = 3
    ∧ (checkServerStatus cexProbes).status = .srvError
    ∧ (checkServerStatus cexProbes).errorMessage = some "Unknown error occurred"
    ∧ strIncludes "Unknown error occurred" "attempts" = false := by
  have hstep : checkServerStatus cexProbes = checkServerWithRetry cexProbes 2 := by
    rw [checkServerStatus,
        checkRetry_step cexProbes 0 "timeout of 10000ms exceeded" 10000
          (by simp [MAX_RETRIES]) rfl (by decide),
        checkRetry_step cexProbes 1 "timeout of 10000ms exceeded" 10000
          (by simp [MAX_RETRIES]) rfl (by decide)]
  have hfin := checkRetry_final_throw cexProbes 2 none 3 rfl (Or.inl rfl)
  have hau : attemptsUsed cexProbes 0 = 3 := by
    rw [attemptsUsed_step cexProbes 0 "timeout of 10000ms exceeded" 10000
          (by simp [MAX_RETRIES]) rfl (by decide),
        attemptsUsed_step cexProbes 1 "timeout of 10000ms exceeded" 10000
          (by simp [MAX_RETRIES]) rfl (by decide),
        attemptsUsed.eq_def]
    rfl
  refine ⟨hau, ?_, ?_, by decide⟩
  · rw [hstep, hfin]
    rfl
  · rw [hstep, hfin]
    rfl

/-- C4 as amended: for a final health-check failure after `k` prior
timed-out attempts, the status is `offline` exactly when the thrown
value is an `Error` whose message marks a network-level failure or a
timeout, and `error` otherwise; the message is the `Error`'s message
with the attempt count appended exactly when at least one retry
occurred **and** the thrown value is an `Error` instance, while a
non-`Error` throw always yields the fixed message
`'Unknown error occurred'` (with no attempt count, even after
retries). -/
theorem health_failure_classification
    (probes : Nat → ProbeAttempt) (k : Nat) (e : Option String) (t : Nat)
    (hk : k ≤ MAX_RETRIES)
    (hprev : ∀ i, i < k → ∃ m ti, probes i = .thrown (some m) ti ∧ isTimeoutErr (some m) = true)
    (hfin : probes k = .thrown e t)
    (hstop : isTimeoutErr e = false ∨ k = MAX_RETRIES) :
    ((checkServerStatus probes).status = .offline ↔ isNetworkErr e = true)
    ∧ ((checkServerStatus probes).status = .srvError ↔ isNetworkErr e = false)
    ∧ (∀ m, e = some m →
        (checkServerStatus probes).errorMessage =
          some (m ++ (if 0 < k then " (after " ++ toString (k + 1) ++ " attempts)" else "")))
    ∧ (e = none → (checkServerStatus probes).errorMessage = some "Unknown error occurred")
    ∧ (checkServerStatus probes).responseTime = some t := by
  have hreach : checkServerStatus probes = checkServerWithRetry probes k := by
    rw [checkServerStatus]
    rw [MAX_RETRIES] at hk
    interval_cases k
    · rfl
    · obtain ⟨m, ti, hpi, hti⟩ := hprev 0 (by omega)
      rw [checkRetry_step probes 0 m ti (by simp [MAX_RETRIES]) hpi hti]
    · obtain ⟨m0', t0', hp0, ht0'⟩ := hprev 0 (by omega)
      obtain ⟨m1', t1', hp1, ht1'⟩ := hprev 1 (by omega)
      rw [checkRetry_step probes 0 m0' t0' (by simp [MAX_RETRIES]) hp0 ht0',
          checkRetry_step probes 1 m1' t1' (by simp [MAX_RETRIES]) hp1 ht1']
  have hstop' : isTimeoutErr e = false ∨ ¬ k < MAX_RETRIES := by
    rcases hstop with h | h
    · exact Or.inl h
    · exact Or.inr (by omega)
  have hfin' := checkRetry_final_throw probes k e t hfin hstop'
  rw [hreach, hfin']
  refine ⟨?_, ?_, ?_, ?_, rfl⟩
  · cases hne : isNetworkErr e <;> simp [hne]
  · cases hne : isNetworkErr e <;> simp [hne]
  · intro m hm
    subst hm
    simp [failureMessage]
  · intro hm
    subst hm
    simp [failureMessage]

/-- Witness for C4 (amended) at concrete inputs: a timeout followed by a
non-network HTTP 401 failure ends `error` with the attempt count
appended after the one retry. -/
theorem health_failure_classification_witness :
    (checkServerStatus authFailProbes).status = .srvError
    ∧ (checkServerStatus authFailProbes).errorMessage
        = some "Request failed with status code 401 (after 2 attempts)"
    ∧ (checkServerStatus authFailProbes).responseTime = some 45 := by
  obtain ⟨_, hErr, hMsg, _, hRt⟩ :=
    health_failure_classification authFailProbes 1
      (some "Request failed with status code 401") 45 (by decide)
      (by
        intro i hi
        have hi0 : i = 0 := by omega
        subst hi0
        exact ⟨"timeout of 10000ms exceeded", 10000, rfl, by decide⟩)
      rfl (Or.inl (by decide))
  refine ⟨hErr.mpr (by decide), ?_, hRt⟩
  rw [hMsg "Request failed with status code 401" rfl]
  decide

lemma checkAllStep_unchanged (now : String) (storage : List WooServer)
    (events : List RegEvent) (hc : Bool) (server : WooServer) (result : CheckResult)
    (h : fieldsChanged server result = false) :
    checkAllStep now (storage, events, hc) (server, result) = (storage, events, hc) := by
  simp [checkAllStep, h]

lemma foldl_checkAllStep_id (now : String) (l : List (WooServer × CheckResult))
    (h : ∀ p ∈ l, fieldsChanged p.1 p.2 = false)
    (acc : List WooServer × List RegEvent × Bool) :
    l.foldl (checkAllStep now) acc = acc := by
  induction l generalizing acc with
  | nil => rfl
  | cons p rest ih =>
      obtain ⟨server, result⟩ := p
      obtain ⟨storage, events, hc⟩ := acc
      rw [List.foldl_cons,
          checkAllStep_unchanged now storage events hc server result
            (h _ (List.mem_cons_self _ _))]
      exact ih (fun q hq => h q (List.mem_cons_of_mem _ hq)) _

/-- C5: a store whose freshly derived status, message and response time
all equal the stored values produces no effect in its `forEach`
iteration (no `updateServer` write, no notification, `hasChanges`
untouched); and a tick in which every store is unchanged leaves the
storage intact and emits no write and no broadcast at all. -/
theorem monitor_no_change_no_effects
    (storage : List WooServer) (check : WooServer → CheckResult) (now : String)
    (server : WooServer) (result : CheckResult)
    (events : List RegEvent) (hasChanges : Bool)
    (hsr : fieldsChanged server result = false)
    (hall : ∀ s ∈ getServers storage, fieldsChanged s (check s) = false) :
    checkAllStep now (storage, events, hasChanges) (server, result) = (storage, events, hasChanges)
    ∧ checkAllServersStatus storage check now = (storage, []) := by
  refine ⟨checkAllStep_unchanged now storage events hasChanges server result hsr, ?_⟩
  have hres : ∀ p ∈ (getServers storage).map (fun s => (s, check s)),
      fieldsChanged p.1 p.2 = false := by
    intro p hp
    obtain ⟨s, hs, rfl⟩ := List.mem_map.mp hp
    exact hall s hs
  simp only [checkAllServersStatus]
  rw [foldl_checkAllStep_id now _ hres]
  rfl

/-- Witness for C5 at concrete inputs: the stored record already carries
the freshly derived fields, so the step and the whole tick are no-ops. -/
theorem monitor_no_change_no_effects_witness :
    checkAllStep "2026-01-01T00:00:00.000Z" ([wMonServer], [], false) (wMonServer, wMonResult)
        = ([wMonServer], [], false)
    ∧ checkAllServersStatus [wMonServer] (fun _ => wMonResult) "2026-01-01T00:00:00.000Z"
        = ([wMonServer], []) :=
  monitor_no_change_no_effects [wMonServer] (fun _ => wMonResult) "2026-01-01T00:00:00.000Z"
    wMonServer wMonResult [] false (by decide) (by decide)

lemma mapFirst_isSome_of_mem (servers : List WooServer) (serverId : String)
    (f : WooServer → WooServer) (h : ∃ s ∈ servers, s.id = serverId) :
    ∃ l', mapFirst servers serverId f = some l' := by
  induction servers with
  | nil =>
      obtain ⟨s, hs, _⟩ := h
      cases hs
  | cons a rest ih =>
      by_cases ha : (a.id == serverId) = true
      · exact ⟨f a :: rest, by simp [mapFirst, ha]⟩
      · rw [Bool.not_eq_true] at ha
        obtain ⟨s, hs, hsid⟩ := h
        rcases List.mem_cons.mp hs with rfl | hmem
        · rw [beq_eq_false_iff_ne] at ha
          exact absurd hsid ha
        · obtain ⟨l', hl'⟩ := ih ⟨s, hmem, hsid⟩
          exact ⟨a :: l', by simp [mapFirst, ha, hl']⟩

lemma mapFirst_eq_none_of_not_mem (servers : List WooServer) (serverId : String)
    (f : WooServer → WooServer) (h : ∀ s ∈ servers, s.id ≠ serverId) :
    mapFirst servers serverId f = none := by
  induction servers with
  | nil => rfl
  | cons a rest ih =>
      have ha : (a.id == serverId) = false := beq_false_of_ne (h a (List.mem_cons_self _ _))
      simp [mapFirst, ha, ih (fun s hs => h s (List.mem_cons_of_mem _ hs))]

/-- C6: each mutating registry operation (`addServer`, `updateServer` on
a present id, `deleteServer`, `toggleServerActive` on a present id)
emits exactly a storage write followed by a notification whose payload
is the written collection; and a notification delivers the list read
back from storage to every registered callback. -/
theorem mutating_ops_notify
    (storage : List WooServer) (input : WooServerInput) (newId serverId : String)
    (patch : WooServerPatch) (callbacks : List Nat)
    (hpresent : ∃ s ∈ getServers storage, s.id = serverId) :
    ((addServer storage input newId).2.2
        = [.write (addServer storage input newId).2.1, .notify (addServer storage input newId).2.1])
    ∧ ((updateServer storage serverId patch).2
        = [.write (updateServer storage serverId patch).1,
           .notify (updateServer storage serverId patch).1])
    ∧ ((deleteServer storage serverId).2
        = [.write (deleteServer storage serverId).1, .notify (deleteServer storage serverId).1])
    ∧ ((toggleServerActive storage serverId).2
        = [.write (toggleServerActive storage serverId).1,
           .notify (toggleServerActive storage serverId).1])
    ∧ ((notifyMonitorCallbacks callbacks storage).map Prod.fst = callbacks
        ∧ ∀ pr ∈ notifyMonitorCallbacks callbacks storage, pr.2 = getServers storage) := by
  refine ⟨rfl, ?_, rfl, ?_, ?_⟩
  · obtain ⟨l', hl'⟩ :=
      mapFirst_isSome_of_mem (getServers storage) serverId (fun s => applyPatch s patch) hpresent
    simp [updateServer, hl']
  · obtain ⟨l', hl'⟩ :=
      mapFirst_isSome_of_mem (getServers storage) serverId
        (fun s => { s with isActive := !s.isActive }) hpresent
    simp [toggleServerActive, hl']
  · constructor
    · simp [notifyMonitorCallbacks, Function.comp_def]
    · intro pr hpr
      obtain ⟨cb, _, rfl⟩ := List.mem_map.mp hpr
      rfl

/-- Witness for C6 at concrete inputs. -/
theorem mutating_ops_notify_witness :
    ((addServer [demoServer 1] wInput "fresh-id").2.2
        = [.write (addServer [demoServer 1] wInput "fresh-id").2.1,
           .notify (addServer [demoServer 1] wInput "fresh-id").2.1])
    ∧ ((updateServer [demoServer 1] "s1" {}).2
        = [.write (updateServer [demoServer 1] "s1" {}).1,
           .notify (updateServer [demoServer 1] "s1" {}).1])
    ∧ ((deleteServer [demoServer 1] "s1").2
        = [.write (deleteServer [demoServer 1] "s1").1, .notify (deleteServer [demoServer 1] "s1").1])
    ∧ ((toggleServerActive [demoServer 1] "s1").2
        = [.write (toggleServerActive [demoServer 1] "s1").1,
           .notify (toggleServerActive [demoServer 1] "s1").1])
    ∧ ((notifyMonitorCallbacks [7] [demoServer 1]).map Prod.fst = [7]
        ∧ ∀ pr ∈ notifyMonitorCallbacks [7] [demoServer 1], pr.2 = getServers [demoServer 1]) :=
  mutating_ops_notify [demoServer 1] wInput "fresh-id" "s1" {} [7] (by decide)

/-- C9: `addServer` returns and persists a record carrying the freshly
generated id (distinct from every stored id when the generator is
fresh), `isActive = true`, `status = 'offline'`, and the input's other
fields unchanged; the new collection is the old one with the record
appended. -/
theorem addServer_spec
    (storage : List WooServer) (input : WooServerInput) (newId : String)
    (hfresh : ∀ s ∈ getServers storage, s.id ≠ newId) :
    ((addServer storage input newId).1.id = newId)
    ∧ (∀ s ∈ getServers storage, s.id ≠ (addServer storage input newId).1.id)
    ∧ ((addServer storage input newId).1.isActive = true)
    ∧ ((addServer storage input newId).1.status = some .offline)
    ∧ ((addServer storage input newId).1.name = input.name)
    ∧ ((addServer storage input newId).1.url = input.url)
    ∧ ((addServer storage input newId).1.consumerKey = input.consumerKey)
    ∧ ((addServer storage input newId).1.consumerSecret = input.consumerSecret)
    ∧ ((addServer storage input newId).1.lastChecked = input.lastChecked)
    ∧ ((addServer storage input newId).1.errorMessage = input.errorMessage)
    ∧ ((addServer storage input newId).1.responseTime = input.responseTime)
    ∧ ((addServer storage input newId).2.1
        = getServers storage ++ [(addServer storage input newId).1])
    ∧ ((addServer storage input newId).2.2
        = [.write ((addServer storage input newId).2.1),
           .notify ((addServer storage input newId).2.1)]) := by
  refine ⟨rfl, ?_, rfl, rfl, rfl, rfl, rfl, rfl, rfl, rfl, rfl, rfl, rfl⟩
  exact fun s hs => hfresh s hs

/-- Witness for C9 at concrete inputs. -/
theorem addServer_spec_witness :
    ((addServer [demoServer 1] wInput "fresh-id").1.id = "fresh-id")
    ∧ (∀ s ∈ getServers [demoServer 1], s.id ≠ (addServer [demoServer 1] wInput "fresh-id").1.id)
    ∧ ((addServer [demoServer 1] wInput "fresh-id").1.isActive = true)
    ∧ ((addServer [demoServer 1] wInput "fresh-id").1.status = some .offline)
    ∧ ((addServer [demoServer 1] wInput "fresh-id").1.name = wInput.name)
    ∧ ((addServer [demoServer 1] wInput "fresh-id").1.url = wInput.url)
    ∧ ((addServer [demoServer 1] wInput "fresh-id").1.consumerKey = wInput.consumerKey)
    ∧ ((addServer [demoServer 1] wInput "fresh-id").1.consumerSecret = wInput.consumerSecret)
    ∧ ((addServer [demoServer 1] wInput "fresh-id").1.lastChecked = wInput.lastChecked)
    ∧ ((addServer [demoServer 1] wInput "fresh-id").1.errorMessage = wInput.errorMessage)
    ∧ ((addServer [demoServer 1] wInput "fresh-id").1.responseTime = wInput.responseTime)
    ∧ ((addServer [demoServer 1] wInput "fresh-id").2.1
        = getServers [demoServer 1] ++ [(addServer [demoServer 1] wInput "fresh-id").1])
    ∧ ((addServer [demoServer 1] wInput "fresh-id").2.2
        = [.write ((addServer [demoServer 1] wInput "fresh-id").2.1),
           .notify ((addServer [demoServer 1] wInput "fresh-id").2.1)]) :=
  addServer_spec [demoServer 1] wInput "fresh-id" (by decide)

/-- C10: `updateServer` with an id absent from the registry leaves the
stored collection unchanged and emits no write and no notification. -/
theorem updateServer_missing_noop
    (storage : List WooServer) (serverId : String) (patch : WooServerPatch)
    (h : ∀ s ∈ getServers storage, s.id ≠ serverId) :
    updateServer storage serverId patch = (getServers storage, []) := by
  simp [updateServer,
        mapFirst_eq_none_of_not_mem (getServers storage) serverId
          (fun s => applyPatch s patch) h]

/-- Witness for C10 at concrete inputs. -/
theorem updateServer_missing_noop_witness :
    updateServer [demoServer 1] "absent-id" {} = (getServers [demoServer 1], []) :=
  updateServer_missing_noop [demoServer 1] "absent-id" {} (by decide)

lemma monitorInv_start (cb : Option Nat) (st : MonitorCtl) (h : MonitorInv st) :
    MonitorInv (startMonitoring cb st) := by
  obtain ⟨h1, h2⟩ := h
  rcases cb with _ | c <;> rcases hI : st.monitoringInterval with _ | p <;>
    simp_all [MonitorInv, startMonitoring]

lemma monitorInv_stop (cb : Option Nat) (st : MonitorCtl) (h : MonitorInv st) :
    MonitorInv (stopMonitoring cb st) := by
  obtain ⟨h1, h2⟩ := h
  rcases cb with _ | c <;> rcases hI : st.monitoringInterval with _ | p <;>
    simp_all [MonitorInv, stopMonitoring] <;>
    split_ifs <;> simp_all <;> try assumption

lemma monitorInv_ops (ops : List MonitorOp) (st : MonitorCtl) (h : MonitorInv st) :
    MonitorInv (applyMonitorOps ops st) := by
  induction ops generalizing st with
  | nil => exact h
  | cons op rest ih =>
      cases op with
      | start c => exact ih _ (monitorInv_start c st h)
      | halt c => exact ih _ (monitorInv_stop c st h)

/-- C8: in every control state reachable from the initial one, a
registered subscriber implies the 5000 ms interval is scheduled; and a
`stopMonitoring` call after which no subscriber remains always leaves
the interval cleared (so no further tick is scheduled). -/
theorem monitor_interval_lifecycle (ops : List MonitorOp) (cb : Nat) :
    ((applyMonitorOps ops initMonitorCtl).monitorCallbacks ≠ [] →
      (applyMonitorOps ops initMonitorCtl).monitoringInterval = some 5000)
    ∧ (∀ st : MonitorCtl, (stopMonitoring (some cb) st).monitorCallbacks = [] →
        (stopMonitoring (some cb) st).monitoringInterval = none) := by
  constructor
  · intro hne
    have hinv := monitorInv_ops ops initMonitorCtl ⟨Or.inl rfl, Or.inl rfl⟩
    rcases hinv.1 with h | h
    · exact absurd h hne
    · exact h
  · intro st hempty
    have hcb : (stopMonitoring (some cb) st).monitorCallbacks
        = st.monitorCallbacks.filter (fun x => x != cb) := by
      simp only [stopMonitoring]
      split_ifs <;> rfl
    rw [hcb] at hempty
    simp only [stopMonitoring]
    split_ifs with hcond
    · rfl
    · cases hI : st.monitoringInterval with
      | none => rfl
      | some p =>
          exfalso
          exact hcond (by simp [hempty, hI])

/-- Witness for C8 at concrete inputs: after one `startMonitoring` with
a callback the interval runs at 5000 ms; stopping that callback clears
the interval. -/
theorem monitor_interval_lifecycle_witness :
    (applyMonitorOps [.start (some 1)] initMonitorCtl).monitoringInterval = some 5000
    ∧ (stopMonitoring (some 1) (applyMonitorOps [.start (some 1)] initMonitorCtl)).monitoringInterval
        = none := by
  obtain ⟨h1, h2⟩ := monitor_interval_lifecycle [.start (some 1)] 1
  exact ⟨h1 (by decide), h2 _ (by decide)⟩

/-- C1: one fetch round sets `hasMore` to `true` exactly when the total
number of entities fetched in that round equals
`selectedStoreCount × 20`, for orders and for products alike; with 2
selected stores, a combined batch of 40 yields `hasMore = true` and a
combined batch of 39 (one store still returning a full page of 20)
yields `hasMore = false`. -/
theorem hasMore_heuristic
    (servers : List WooServer) (selectedServers : List String)
    (fetchO : WooServer → Except (Option String) (List Order))
    (fetchP : WooServer → Except (Option String) (List Product))
    (prevO : List Order) (prevP : List Product) :
    ((fetchOrdersRound servers selectedServers fetchO prevO).hasMore = true ↔
      (fetchOrdersBatch servers selectedServers fetchO).length = selectedServers.length * 20)
    ∧ ((fetchProductsRound servers selectedServers fetchP prevP).hasMore = true ↔
      (fetchProductsBatch servers selectedServers fetchP).length = selectedServers.length * 20)
    ∧ ((fetchOrdersRound [demoServer 1, demoServer 2] ["s1", "s2"] wFetch40 []).hasMore = true)
    ∧ ((fetchOrdersRound [demoServer 1, demoServer 2] ["s1", "s2"] wFetch39 []).hasMore = false) := by
  refine ⟨?_, ?_, by decide, by decide⟩
  · simp [fetchOrdersRound]
  · simp [fetchProductsRound]

/-- C7: when store `A` succeeds with 5 entities and store `B` fails, the
failing store contributes an empty list, the aggregation still produces
a merged result (per-store errors are caught, so nothing is raised),
and the merged set is exactly `A`'s 5 annotated entities. -/
theorem partial_failure_aggregation
    (servers : List WooServer) (fetchOne : WooServer → Except (Option String) (List Order))
    (A B : WooServer) (es : List Order) (err : Option String)
    (hfA : servers.find? (fun s => s.id == A.id) = some A)
    (hfB : servers.find? (fun s => s.id == B.id) = some B)
    (hA : fetchOne A = .ok es) (hB : fetchOne B = .error err) (hlen : es.length = 5) :
    perStoreOrders servers fetchOne B.id = []
    ∧ fetchOrdersBatch servers [A.id, B.id] fetchOne
        = es.map (fun o => { o with store := some { id := A.id, name := A.name } })
    ∧ (fetchOrdersRound servers [A.id, B.id] fetchOne []).orders
        = es.map (fun o => { o with store := some { id := A.id, name := A.name } })
    ∧ (fetchOrdersRound servers [A.id, B.id] fetchOne []).orders.length = 5 := by
  have hBempty : perStoreOrders servers fetchOne B.id = [] := by
    simp [perStoreOrders, hfB, hB]
  have hAfull : perStoreOrders servers fetchOne A.id
      = es.map (fun o => { o with store := some { id := A.id, name := A.name } }) := by
    simp [perStoreOrders, hfA, hA]
  have hbatch : fetchOrdersBatch servers [A.id, B.id] fetchOne
      = es.map (fun o => { o with store := some { id := A.id, name := A.name } }) := by
    simp [fetchOrdersBatch, hAfull, hBempty]
  have horders : (fetchOrdersRound servers [A.id, B.id] fetchOne []).orders
      = es.map (fun o => { o with store := some { id := A.id, name := A.name } }) := by
    simp [fetchOrdersRound, hbatch, mergeOrders]
  refine ⟨hBempty, hbatch, horders, ?_⟩
  rw [horders]
  simp [hlen]

/-- Witness for C7 at concrete inputs: store `s1` succeeds with 5
orders, store `s2` throws a network error. -/
theorem partial_failure_aggregation_witness :
    perStoreOrders [demoServer 1, demoServer 2] wFetchPartial (demoServer 2).id = []
    ∧ (fetchOrdersRound [demoServer 1, demoServer 2]
        [(demoServer 1).id, (demoServer 2).id] wFetchPartial []).orders.length = 5 := by
  obtain ⟨h1, _, _, h4⟩ :=
    partial_failure_aggregation [demoServer 1, demoServer 2] wFetchPartial
      (demoServer 1) (demoServer 2) (demoOrders 5) (some "Network Error")
      rfl rfl rfl rfl (by decide)
  exact ⟨h1, h4⟩

end Woo
